import Mathlib

/-!
Shallow embedding of `src/helpers/parser.ts` (class `Parser`) of the
query-string-parser repository: the registries (`DataType`, `Operator`),
the value coercer `Parser.transform`, and the character-driven tokenizer
`Parser.extract`, together with proofs of the specification claims.

Machine conventions used throughout:
* TypeScript `undefined` slots are `Option` (`none` = `undefined`);
* JS truthiness tests on header slots are modelled exactly (`undefined`
  and the empty string are falsy for `field`);
* JS `NaN` results of `+str` / `Date.parse` are `none`;
* thrown `Error(message)` values are the constructors of `Err`, one per
  throw site, carrying the data the message interpolates.
-/

namespace QSP

/-- Declared types, from `enums/data-type.enum` (shipped in the repository as
`dist/enums/type.enum.js`: `s`, `b`, `n`, `d`, `v`). -/
inductive DataType
  | string
  | boolean
  | number
  | date
  | void
deriving DecidableEq, Repr

/-- Operator registry, from `src/enums/operator.enum.ts`.  The source members
`in` and `notIn` are renamed `opIn` and `opNotIn` (`in` is reserved in Lean). -/
inductive Operator
  | gt
  | gte
  | eq
  | ne
  | is
  | isNot
  | lt
  | lte
  | regex
  | notRegex
  | between
  | notBetween
  | opIn
  | opNotIn
deriving DecidableEq, Repr

/-- `Parser.getFilterType`: `Object.values(DataType).find(t => t === target)`;
the token strings are those of `dist/enums/type.enum.js`. -/
def getFilterType (target : String) : Option DataType :=
  if target = "s" then some DataType.string
  else if target = "b" then some DataType.boolean
  else if target = "n" then some DataType.number
  else if target = "d" then some DataType.date
  else if target = "v" then some DataType.void
  else none

/-- `Parser.getFilterOperator`: `Object.values(Operator).find(o => o === target)`. -/
def getFilterOperator (target : String) : Option Operator :=
  if target = ">" then some Operator.gt
  else if target = ">=" then some Operator.gte
  else if target = "=" then some Operator.eq
  else if target = "!=" then some Operator.ne
  else if target = "!!" then some Operator.is
  else if target = "!" then some Operator.isNot
  else if target = "<" then some Operator.lt
  else if target = "<=" then some Operator.lte
  else if target = "~" then some Operator.regex
  else if target = "!~" then some Operator.notRegex
  else if target = "><" then some Operator.between
  else if target = ">!<" then some Operator.notBetween
  else if target = "<>" then some Operator.opIn
  else if target = "<!>" then some Operator.opNotIn
  else none

/-- `Parser.isValidKey`: the whitelist admits everything when it contains the
wildcard `*`, otherwise exactly its members. -/
def isValidKey (allowedKeys : List String) (target : String) : Bool :=
  allowedKeys.contains "*" || allowedKeys.contains target

/-- `Parser.isRangeTypeOperator`; the argument is the (possibly undefined)
`filter.operator`, and `undefined === enumMember` is false in JS. -/
def isRangeTypeOperator (op : Option Operator) : Bool :=
  op = some Operator.between || op = some Operator.notBetween

/-- `Parser.hasOneOfRangeTypeOperator` (note: includes `in` and `notIn`). -/
def hasOneOfRangeTypeOperator (op : Option Operator) : Bool :=
  op = some Operator.eq ||
  op = some Operator.ne ||
  op = some Operator.gt ||
  op = some Operator.gte ||
  op = some Operator.lt ||
  op = some Operator.lte ||
  op = some Operator.opIn ||
  op = some Operator.opNotIn

/-- `Parser.forStringTypeOperator`: `[eq, ne, in, notIn, regex, notRegex].some(o => o == target)`. -/
def forStringTypeOperator (op : Option Operator) : Bool :=
  [some Operator.eq, some Operator.ne, some Operator.opIn, some Operator.opNotIn,
   some Operator.regex, some Operator.notRegex].contains op

/-- One constructor per `throw new Error(...)` site of `parser.ts`, carrying
the data interpolated into the message (sites that interpolate an
`undefined` slot carry nothing). -/
inductive Err
  | unbalanced
  | invalidType
  | notAllowedKey (field : String)
  | invalidOperator
  | unexpectedCharacter
  | invalidEscapedChar (c : Char)
  | missingOperator (t : Option DataType)
  | unexpectedOperatorString (op : Option Operator)
  | unexpectedOperatorBoolean (op : Option Operator)
  | unexpectedValueBoolean (v : String)
  | invalidValueTypes
  | expectingOneNumber (given : Nat)
  | expectingOneDate (given : Nat)
  | wrongArgCount (expected given : Nat)
  | invalidOperatorForKey (op : Option Operator) (field : Option String)
  | voidOperator (v : String)
  | unexpectedValueVoid (v : String)
  | jsonSyntax (s : String)
deriving DecidableEq, Repr

/-- Typed values a finalized descriptor can carry after `transform`. -/
inductive Value
  | str (s : String)
  | strs (l : List String)
  | num (q : Rat)
  | nums (l : List Rat)
  | bool (b : Bool)
  | dates (l : List Int)
  | null
deriving DecidableEq, Repr

/-- The in-flight header slots of `this.filter` during the scan. -/
structure RawFilter where
  type : Option DataType := none
  field : Option String := none
  operator : Option Operator := none
  multi : Bool := false
deriving DecidableEq, Repr

/-- The argument object `{...this.filter, delimiter?, value}` handed to
`Parser.transform`. -/
structure RawDescriptor where
  type : Option DataType
  field : Option String
  operator : Option Operator
  multi : Bool
  delimiter : Option Char
  value : String
deriving DecidableEq, Repr

/-- A finalized `FilterQuery` record as returned from `transform`. -/
structure FilterQuery where
  type : Option DataType
  field : Option String
  operator : Option Operator
  multi : Bool
  delimiter : Option Char
  value : Value
deriving DecidableEq, Repr

/-- The spread `{...filter, value: v}` used by the return sites of `transform`. -/
def RawDescriptor.withValue (rd : RawDescriptor) (v : Value) : FilterQuery :=
  ⟨rd.type, rd.field, rd.operator, rd.multi, rd.delimiter, v⟩

/-- The spread `{...this.filter, delimiter?, value}` that builds the argument
of `transform` at the three finalization sites of `extract`. -/
def RawFilter.toDescriptor (f : RawFilter) (delim : Option Char) (value : String) : RawDescriptor :=
  ⟨f.type, f.field, f.operator, f.multi, delim, value⟩

/-- Split a character list at every occurrence of `sep`, keeping empty
pieces, as JS `split` does with a one-character separator. -/
def splitOnChar (sep : Char) : List Char → List String
  | [] => [""]
  | c :: cs =>
    let r := splitOnChar sep cs
    if c = sep then "" :: r
    else
      match r with
      | [] => [String.mk [c]]
      | s :: rest => String.mk (c :: s.data) :: rest

/-- JS `String.prototype.split` as used on `filter.value`: a single-character
separator splits at every occurrence keeping empty pieces, and
`split(undefined)` (the non-multi case, where `filter.delimiter` is absent)
returns the whole string as the only element. -/
def splitValue (v : String) (d : Option Char) : List String :=
  match d with
  | none => [v]
  | some c => splitOnChar c v.data

/-- Decimal digits folded into a natural number. -/
def digitsToNat (l : List Char) : Nat :=
  l.foldl (fun acc c => acc * 10 + (c.toNat - 48)) 0

/-- Unsigned decimal literal, with an optional single fractional part
(`"5"`, `"5."`, `".5"`, `"5.25"`); anything else is `none`. -/
def parseDecimal (l : List Char) : Option Rat :=
  let intPart := l.takeWhile Char.isDigit
  let rest := l.drop intPart.length
  match rest with
  | [] => if intPart.isEmpty then none else some ((digitsToNat intPart : Nat) : Rat)
  | '.' :: frac =>
    if frac.all Char.isDigit && !(intPart.isEmpty && frac.isEmpty) then
      some ((digitsToNat intPart : Rat) + (digitsToNat frac : Rat) / ((10 : Rat) ^ frac.length))
    else none
  | _ => none

/-- ASCII whitespace stripped by JS number coercion. -/
def isJsSpace (c : Char) : Bool :=
  c = ' ' || c = '\t' || c = '\n' || c = '\r'

/-- Whitespace trimmed from both ends of a character list. -/
def trimChars (l : List Char) : List Char :=
  ((l.dropWhile isJsSpace).reverse.dropWhile isJsSpace).reverse

/-- Model of the JS string-to-number coercion `+str` used by the number
branch of `transform`, restricted to optionally signed decimal literals
(the forms the repository exercises): surrounding whitespace is trimmed, a
whitespace-only string coerces to `0`, and every other unparseable string
is `NaN`, modelled as `none`.  Exact rationals stand in for JS doubles; no
claim exercises float rounding. -/
def toNumber (s : String) : Option Rat :=
  match trimChars s.data with
  | [] => some 0
  | '-' :: rest => (parseDecimal rest).map (fun q => -q)
  | '+' :: rest => parseDecimal rest
  | l => parseDecimal l

/-- Gregorian leap-year test. -/
def isLeapYear (y : Nat) : Bool :=
  y % 4 = 0 && (y % 100 ≠ 0 || y % 400 = 0)

/-- Length of a month in the proleptic Gregorian calendar. -/
def daysInMonth (y m : Nat) : Nat :=
  if m = 2 then (if isLeapYear y then 29 else 28)
  else if m = 4 || m = 6 || m = 9 || m = 11 then 30
  else 31

/-- Days from 1970-01-01 to the civil date `y-m-d` (Howard Hinnant's
`days_from_civil`, specialised to non-negative years). -/
def daysFromCivil (y m d : Nat) : Int :=
  let yy := if m ≤ 2 then y - 1 else y
  let era := yy / 400
  let yoe := yy % 400
  let mp := (m + 9) % 12
  let doy := (153 * mp + 2) / 5 + (d - 1)
  let doe := yoe * 365 + yoe / 4 - yoe / 100 + doy
  ((era * 146097 + doe : Nat) : Int) - 719468

/-- Model of JS `Date.parse` as used by the date branch of `transform`,
restricted to the ISO `YYYY-MM-DD` date-only form, the only form the
repository exercises: a valid date yields its UTC timestamp in
milliseconds, anything else is `NaN`, modelled as `none`. -/
def dateParse (s : String) : Option Int :=
  match s.data with
  | [y1, y2, y3, y4, '-', m1, m2, '-', d1, d2] =>
    if [y1, y2, y3, y4, m1, m2, d1, d2].all Char.isDigit then
      let y := digitsToNat [y1, y2, y3, y4]
      let m := digitsToNat [m1, m2]
      let d := digitsToNat [d1, d2]
      if 1 ≤ m ∧ m ≤ 12 ∧ 1 ≤ d ∧ d ≤ daysInMonth y m then
        some (86400000 * daysFromCivil y m d)
      else none
    else none
  | _ => none

/-- Model of JS `JSON.parse` on the only strings the code can hand it: the
boolean branch guards its argument to `"true"`/`"false"` and the void branch
to `"null"`/`"undefined"`; `"undefined"` is not valid JSON, so `JSON.parse`
raises a `SyntaxError` there, modelled as `Except.error`. -/
def jsonParse (s : String) : Except Err Value :=
  if s = "true" then .ok (.bool true)
  else if s = "false" then .ok (.bool false)
  else if s = "null" then .ok .null
  else .error (.jsonSyntax s)

/-- `Parser.transform` (lines 138-260 of `parser.ts`): per-declared-type
operator legality, arity and value coercion.  Mirrors the source branch by
branch; `nums`/`dates` with a `NaN` entry abort before any arity check, the
non-multi number unwraps via `nums.pop()` (the last element), and the
non-multi date branch returns the filter object unchanged (raw string
value). -/
def transform (filter : RawDescriptor) : Except Err FilterQuery :=
  if filter.type = some DataType.string then
    if !forStringTypeOperator filter.operator then
      .error (.unexpectedOperatorString filter.operator)
    else if filter.multi then
      .ok (filter.withValue (.strs (splitValue filter.value filter.delimiter)))
    else
      .ok (filter.withValue (.str filter.value))
  else if filter.type = some DataType.boolean then
    if filter.operator ≠ some Operator.eq ∧ filter.operator ≠ some Operator.ne then
      .error (.unexpectedOperatorBoolean filter.operator)
    else if filter.value ≠ "true" ∧ filter.value ≠ "false" then
      .error (.unexpectedValueBoolean filter.value)
    else
      (jsonParse filter.value).map filter.withValue
  else if filter.type = some DataType.number then
    let nums := (splitValue filter.value filter.delimiter).map toNumber
    if nums.any Option.isNone then
      .error .invalidValueTypes
    else
      let ns := nums.filterMap id
      if !filter.multi then
        if ns.length ≠ 1 then .error (.expectingOneNumber ns.length)
        else .ok (filter.withValue (.num (ns.getLastD 0)))
      else if isRangeTypeOperator filter.operator then
        if ns.length ≠ 2 then .error (.wrongArgCount 2 ns.length)
        else .ok (filter.withValue (.nums ns))
      else if !hasOneOfRangeTypeOperator filter.operator then
        .error (.invalidOperatorForKey filter.operator filter.field)
      else
        .ok (filter.withValue (.nums ns))
  else if filter.type = some DataType.date then
    let dates := (splitValue filter.value filter.delimiter).map dateParse
    if dates.any Option.isNone then
      .error .invalidValueTypes
    else
      let ds := dates.filterMap id
      if !filter.multi then
        if ds.length ≠ 1 then .error (.expectingOneDate ds.length)
        else .ok (filter.withValue (.str filter.value))
      else if isRangeTypeOperator filter.operator then
        if ds.length ≠ 2 then .error (.wrongArgCount 2 ds.length)
        else .ok (filter.withValue (.dates ds))
      else if !hasOneOfRangeTypeOperator filter.operator then
        .error (.invalidOperatorForKey filter.operator filter.field)
      else
        .ok (filter.withValue (.dates ds))
  else if filter.type = some DataType.void then
    if filter.operator ≠ some Operator.is ∧ filter.operator ≠ some Operator.isNot then
      .error (.voidOperator filter.value)
    else if filter.value ≠ "null" ∧ filter.value ≠ "undefined" then
      .error (.unexpectedValueVoid filter.value)
    else
      (jsonParse filter.value).map filter.withValue
  else
    .ok (filter.withValue (.str filter.value))

/-- Per-call scan state of `extract`: the output accumulator `buffer`, the
header slots `filter`, the character accumulation `stack` (a JS array of
characters, realised as the string `stack.join('')` builds), and the
`escaped` flag. -/
structure PState where
  buffer : List FilterQuery := []
  filter : RawFilter := {}
  stack : String := ""
  escaped : Bool := false
deriving DecidableEq, Repr

/-- JS truthiness of the `field` header slot: both `undefined` and the empty
string are falsy, so `!this.filter.field` holds for either. -/
def fieldFalsy : Option String → Bool
  | none => true
  | some s => s.isEmpty

/-- The fresh state written by `Parser.reset()` on top of an existing output
buffer (`reset` clears `filter`, `escaped` and `stack` but not `buffer`). -/
def resetWith (buffer : List FilterQuery) : PState :=
  { buffer := buffer, filter := {}, stack := "", escaped := false }

/-- One iteration of the scan loop of `Parser.extract` (lines 271-354 of
`parser.ts`), handling a single character.  Mirrors the source branch by
branch, including: the `escaped` flag is cleared only in the escaped-colon
branch (the default branch pushes the character and leaves `escaped` as it
is), every separator and bracket raises when `escaped` is set, and `[`/`(`
discard the accumulated stack. -/
def stepChar (allowedKeys : List String) (st : PState) (chr : Char) : Except Err PState :=
  if chr = ':' then
    if !st.escaped then
      if st.filter.multi then
        .error .unbalanced
      else if st.filter.type = none then
        match getFilterType st.stack with
        | none => .error .invalidType
        | some t => .ok { st with filter := { st.filter with type := some t }, stack := "" }
      else if fieldFalsy st.filter.field then
        let f := st.stack
        if !isValidKey allowedKeys f then .error (.notAllowedKey f)
        else .ok { st with filter := { st.filter with field := some f }, stack := "" }
      else if st.filter.operator = none then
        match getFilterOperator st.stack with
        | none => .error .invalidOperator
        | some op => .ok { st with filter := { st.filter with operator := some op }, stack := "" }
      else
        .error .unexpectedCharacter
    else
      .ok { st with stack := st.stack.push ':', escaped := false }
  else if chr = '|' || chr = ',' then
    if st.escaped then
      .error (.invalidEscapedChar chr)
    else if !st.stack.isEmpty && !st.filter.multi then
      if st.filter.type.isSome && !fieldFalsy st.filter.field && st.filter.operator.isNone then
        .error (.missingOperator st.filter.type)
      else
        (transform (st.filter.toDescriptor none st.stack)).map
          (fun fq => resetWith (st.buffer ++ [fq]))
    else if st.filter.multi then
      .ok { st with stack := st.stack.push chr }
    else
      .ok st
  else if chr = ']' || chr = ')' then
    if st.escaped then
      .error (.invalidEscapedChar chr)
    else
      (transform (st.filter.toDescriptor (some (if chr = ')' then '|' else ',')) st.stack)).map
        (fun fq => resetWith (st.buffer ++ [fq]))
  else if chr = '[' || chr = '(' then
    if st.escaped then
      .error (.invalidEscapedChar chr)
    else
      .ok { st with filter := { st.filter with multi := true }, stack := "" }
  else if chr = '\\' then
    .ok { st with escaped := true }
  else
    .ok { st with stack := st.stack.push chr }

/-- The scan loop, left to right over the characters of the input. -/
def runChars (allowedKeys : List String) : PState → List Char → Except Err PState
  | st, [] => .ok st
  | st, c :: cs =>
    match stepChar allowedKeys st c with
    | .error e => .error e
    | .ok st' => runChars allowedKeys st' cs

/-- End-of-input handling of `Parser.extract` (lines 356-370): a final
descriptor is flushed only when the stack is non-empty and `field` or
`operator` is truthy, erroring on an open group; otherwise whatever the
stack holds is dropped and the buffer is returned as is. -/
def finalize (st : PState) : Except Err (List FilterQuery) :=
  if !st.stack.isEmpty && (!fieldFalsy st.filter.field || st.filter.operator.isSome) then
    if st.filter.multi then
      .error .unbalanced
    else
      (transform (st.filter.toDescriptor none st.stack)).map
        (fun fq => st.buffer ++ [fq])
  else
    .ok st.buffer

/-- `Parser.extract(str, options)` as a function of the input and the merged
`allowedKeys` configuration (`{...defaults, ...options}`; the default
whitelist is the wildcard). -/
def extract (str : String) (allowedKeys : List String := ["*"]) : Except Err (List FilterQuery) :=
  match runChars allowedKeys {} str.data with
  | .error e => .error e
  | .ok st => finalize st

/-- The mutable fields of a `Parser` instance that persist between calls to
`extract`, together with its stored options. -/
structure ParserInstance where
  allowedKeys : List String
  buffer : List FilterQuery
  filter : RawFilter
  stack : String
  chr : String
  escaped : Bool

/-- `Parser.extract` as a method: lines 262-269 overwrite `this.buffer` and
`this.opts` and `reset()` overwrites `this.filter`, `this.escaped`,
`this.chr` and `this.stack` before the scan reads any of them, which is
what this definition performs on the incoming instance. -/
def extractOn (inst : ParserInstance) (str : String)
    (options : Option (List String)) : Except Err (List FilterQuery) :=
  let inst := { inst with
    buffer := ([] : List FilterQuery)
    allowedKeys := options.getD ["*"]
    filter := {}
    escaped := false
    chr := ""
    stack := "" }
  match runChars inst.allowedKeys
      { buffer := inst.buffer, filter := inst.filter,
        stack := inst.stack, escaped := inst.escaped } str.data with
  | .error e => .error e
  | .ok st => finalize st

instance {ε α : Type} [DecidableEq ε] [DecidableEq α] : DecidableEq (Except ε α) := fun x y =>
  match x, y with
  | .ok a, .ok b =>
    if h : a = b then .isTrue (by rw [h]) else .isFalse (by simp [h])
  | .error e, .error e' =>
    if h : e = e' then .isTrue (by rw [h]) else .isFalse (by simp [h])
  | .ok _, .error _ => .isFalse (by simp)
  | .error _, .ok _ => .isFalse (by simp)

theorem filterMap_id_map_some {α : Type} (L : List α) : (L.map some).filterMap id = L := by
  induction L with
  | nil => rfl
  | cons a l ih => simp [ih]

theorem any_isNone_map_some {α : Type} (L : List α) : (L.map some).any Option.isNone = false := by
  induction L with
  | nil => rfl
  | cons a l ih => simp [ih]

theorem length_filterMap_of_any_isNone_false {α β : Type} (g : α → Option β) (l : List α)
    (h : (l.map g).any Option.isNone = false) : (l.filterMap g).length = l.length := by
  induction l with
  | nil => rfl
  | cons a l ih =>
    simp only [List.map_cons, List.any_cons, Bool.or_eq_false_iff] at h
    cases hg : g a with
    | none => rw [hg] at h; simp at h
    | some x => simp [List.filterMap_cons, hg, ih h.2]

/-- Claim C1, counterexample: a backslash-escaped comma inside scalar text is
not accepted; `extract` rejects the whole input with an
invalid-escaped-character error instead of appending a literal `,`. -/
theorem C1_counterexample :
    extract "s:f:=:a\\,b" = .error (.invalidEscapedChar ',') := by decide

/-- Claim C1 (amended): an escaped occurrence of any of `,`, `|`, `[`, `]`,
`(`, `)` is rejected by the scan loop with an invalid-escaped-character
error — escaping never suppresses their structural meaning; the escaped
colon is the only structural character accepted literally into the value. -/
theorem C1_escaped_chars_amended :
    (∀ (ak : List String) (st : PState) (c : Char), st.escaped = true →
      c = ',' ∨ c = '|' ∨ c = '[' ∨ c = ']' ∨ c = '(' ∨ c = ')' →
      stepChar ak st c = .error (.invalidEscapedChar c)) ∧
    extract "s:f:=:a\\:b" =
      .ok [⟨some .string, some "f", some .eq, false, none, .str "a:b"⟩] := by
  constructor
  · rintro ak st c hesc (rfl | rfl | rfl | rfl | rfl | rfl) <;> simp [stepChar, hesc]
  · decide

/-- Claim C1 witness: the amended statement applied at a concrete state and
character. -/
theorem C1_escaped_chars_amended_witness :
    stepChar ["*"] { escaped := true } ',' = .error (.invalidEscapedChar ',') :=
  C1_escaped_chars_amended.1 ["*"] { escaped := true } ',' rfl (Or.inl rfl)

/-- Claim C4: the void branch accepts `null` under both is (`!!`) and is-not
(`!`) and coerces it to the null value, and rejects other operators and
literals, but the rawValue `undefined` — admitted by the code's own guard —
reaches `JSON.parse("undefined")`, which raises a SyntaxError instead of
producing the null value. -/
theorem C4_void_undefined_bug :
    extract "v:userId:!:null" =
      .ok [⟨some .void, some "userId", some .isNot, false, none, .null⟩] ∧
    extract "v:userId:!!:null" =
      .ok [⟨some .void, some "userId", some .is, false, none, .null⟩] ∧
    extract "v:userId:!:undefined" = .error (.jsonSyntax "undefined") ∧
    extract "v:a:=:null" = .error (.voidOperator "null") ∧
    extract "v:a:!:nil" = .error (.unexpectedValueVoid "nil") := by
  refine ⟨by decide, by decide, by decide, by decide, by decide⟩

/-- Claim C6: the `escaped` flag is not cleared when the character after the
backslash is an ordinary one — the default branch pushes the character and
leaves the flag set — so a structural character after intervening ordinary
characters does not regain its structural meaning: a separator is rejected
and a colon is appended literally. -/
theorem C6_escaped_persists_bug :
    stepChar ["*"] ⟨[], ⟨some .string, some "f", some .eq, false⟩, "a", true⟩ 'b' =
      .ok ⟨[], ⟨some .string, some "f", some .eq, false⟩, "ab", true⟩ ∧
    extract "s:f:=:a\\bc,s:g:=:d" = .error (.invalidEscapedChar ',') ∧
    extract "s:f:=:a\\b:c" =
      .ok [⟨some .string, some "f", some .eq, false, none, .str "ab:c"⟩] := by
  refine ⟨by decide, by decide, by decide⟩

/-- Claim C2: the closing bracket records the group delimiter (`,` for `]`,
`|` for `)`) and number/date coercion splits the raw value on that recorded
delimiter uniformly — not always on a literal comma (a comma inside a
pipe-joined group is not a split point, so `(1,2)` fails as one unparseable
token) — and a non-multi value, whose delimiter slot is absent, is treated
as a single token. -/
theorem C2_delimiter_split :
    extract "n:stage:>=:(1|2|3)" =
      .ok [⟨some .number, some "stage", some .gte, true, some '|', .nums [1, 2, 3]⟩] ∧
    extract "n:a:<>:(1,2)" = .error .invalidValueTypes ∧
    extract "n:a:<>:[1,2]" =
      .ok [⟨some .number, some "a", some .opIn, true, some ',', .nums [1, 2]⟩] ∧
    extract "n:a:=:7" =
      .ok [⟨some .number, some "a", some .eq, false, none, .num 7⟩] ∧
    (∀ v : String, splitValue v none = [v]) ∧
    (∀ (f : Option String) (v : String) (d : Char) (L : List Rat),
      (splitValue v (some d)).map toNumber = L.map some →
      transform ⟨some .number, f, some .gte, true, some d, v⟩ =
        .ok ⟨some .number, f, some .gte, true, some d, .nums L⟩) ∧
    (∀ (f : Option String) (v : String) (d : Char) (L : List Int),
      (splitValue v (some d)).map dateParse = L.map some →
      transform ⟨some .date, f, some .gte, true, some d, v⟩ =
        .ok ⟨some .date, f, some .gte, true, some d, .dates L⟩) := by
  refine ⟨by decide, by decide, by decide, by decide, fun v => rfl, ?_, ?_⟩
  · intro f v d L h
    simp [transform, RawDescriptor.withValue, h, any_isNone_map_some,
      filterMap_id_map_some, isRangeTypeOperator, hasOneOfRangeTypeOperator]
  · intro f v d L h
    simp [transform, RawDescriptor.withValue, h, any_isNone_map_some,
      filterMap_id_map_some, isRangeTypeOperator, hasOneOfRangeTypeOperator]

/-- Claim C2 witness: the pipe-delimiter split conjunct applied at a concrete
descriptor. -/
theorem C2_delimiter_split_witness :
    transform ⟨some .number, some "x", some .gte, true, some '|', "1|2"⟩ =
      .ok ⟨some .number, some "x", some .gte, true, some '|', .nums [1, 2]⟩ :=
  C2_delimiter_split.2.2.2.2.2.1 (some "x") "1|2" '|' [1, 2] (by decide)

/-- Claim C3, counterexample: a well-formed non-multi date clause (the raw
value parses as a date) yields a descriptor whose value is the unconverted
raw string, not the parsed instant. -/
theorem C3_counterexample :
    extract "d:posted:=:2024-04-01" =
      .ok [⟨some .date, some "posted", some .eq, false, none, .str "2024-04-01"⟩] ∧
    dateParse "2024-04-01" = some 1711929600000 ∧
    Value.str "2024-04-01" ≠ Value.dates [1711929600000] := by
  refine ⟨by decide, by decide, by decide⟩

/-- Claim C3 (amended): for every non-multi date descriptor whose raw value
parses as a date, `transform` validates the parse and returns the
descriptor with the raw string unchanged as its value. -/
theorem C3_date_raw_value_amended :
    ∀ (f : Option String) (op : Option Operator) (v : String) (t : Int),
      dateParse v = some t →
      transform ⟨some .date, f, op, false, none, v⟩ =
        .ok ⟨some .date, f, op, false, none, .str v⟩ := by
  intro f op v t h
  simp [transform, RawDescriptor.withValue, splitValue, h]

/-- Claim C3 witness: the amended statement applied at a concrete clause. -/
theorem C3_date_raw_value_amended_witness :
    transform ⟨some .date, some "posted", some .eq, false, none, "2024-04-01"⟩ =
      .ok ⟨some .date, some "posted", some .eq, false, none, .str "2024-04-01"⟩ :=
  C3_date_raw_value_amended (some "posted") (some .eq) "2024-04-01" 1711929600000 (by decide)

/-- Claim C5, counterexample: with an unclosed group and an empty
accumulation buffer at end of input (`s:f:=:[` — `isMulti` is true in the
final scan state), `extract` succeeds with the empty list instead of
failing with a GrammarError. -/
theorem C5_counterexample :
    runChars ["*"] {} ("s:f:=:[".data) =
      .ok ⟨[], ⟨some .string, some "f", some .eq, true⟩, "", false⟩ ∧
    extract "s:f:=:[" = .ok [] := by
  refine ⟨by decide, by decide⟩

/-- Claim C5 (amended): an unclosed group at end of input raises the
unbalanced GrammarError only when the accumulation buffer is non-empty and
`field` or `operator` is set; with an empty buffer the end-of-input handler
returns the output accumulated so far without error. -/
theorem C5_unclosed_group_amended :
    (∀ st : PState, st.filter.multi = true → st.stack.isEmpty = false →
      (fieldFalsy st.filter.field = false ∨ st.filter.operator.isSome = true) →
      finalize st = .error .unbalanced) ∧
    (∀ st : PState, st.stack.isEmpty = true → finalize st = .ok st.buffer) ∧
    extract "s:f:=:[ab" = .error .unbalanced ∧
    extract "s:f:=:[" = .ok [] := by
  refine ⟨?_, ?_, by decide, by decide⟩
  · intro st hm hs hf
    rcases hf with hf | hf <;> simp [finalize, hm, hs, hf]
  · intro st hs
    simp [finalize, hs]

/-- Claim C5 witness: the amended statement applied at a concrete end-of-input
state with an open group and a non-empty buffer. -/
theorem C5_unclosed_group_amended_witness :
    finalize ⟨[], ⟨some .string, some "f", some .eq, true⟩, "ab", false⟩ =
      .error .unbalanced :=
  C5_unclosed_group_amended.1 ⟨[], ⟨some .string, some "f", some .eq, true⟩, "ab", false⟩
    rfl rfl (Or.inl rfl)

/-- Claim C7: in any scan state with the `escaped` flag set, a colon is
appended to the buffer as a literal `:` (clearing the flag, touching no
header slot), and the documented bracketed example decodes to the single
element with the literal colon preserved. -/
theorem C7_escaped_colon_literal :
    (∀ (ak : List String) (st : PState), st.escaped = true →
      stepChar ak st ':' = .ok { st with stack := st.stack.push ':', escaped := false }) ∧
    extract "s:comment:!~:[message me\\:]" =
      .ok [⟨some .string, some "comment", some .notRegex, true, some ',',
            .strs ["message me:"]⟩] := by
  refine ⟨?_, by decide⟩
  intro ak st h
  simp [stepChar, h]

/-- Claim C7 witness: the escaped-colon step applied at a concrete state. -/
theorem C7_escaped_colon_literal_witness :
    stepChar ["*"] { stack := "a", escaped := true } ':' =
      .ok { stack := "a:", escaped := false } :=
  C7_escaped_colon_literal.1 ["*"] { stack := "a", escaped := true } rfl

/-- Claim C8: for a multi number or date descriptor under range (`><`) or
not-range (`>!<`), a group that does not split into exactly 2 elements
always fails — with the error naming expected count 2 versus the actual
count whenever every token parses — and a group of exactly 2 parseable
elements succeeds with the two values in input order. -/
theorem C8_range_arity :
    ∀ (f : Option String) (op : Operator) (v : String) (d : Char),
      op = .between ∨ op = .notBetween →
      (((splitValue v (some d)).length ≠ 2 →
        ∃ e, transform ⟨some .number, f, some op, true, some d, v⟩ = .error e) ∧
      (∀ L : List Rat, (splitValue v (some d)).map toNumber = L.map some → L.length ≠ 2 →
        transform ⟨some .number, f, some op, true, some d, v⟩ =
          .error (.wrongArgCount 2 L.length)) ∧
      (∀ t₁ t₂ a b, splitValue v (some d) = [t₁, t₂] →
        toNumber t₁ = some a → toNumber t₂ = some b →
        transform ⟨some .number, f, some op, true, some d, v⟩ =
          .ok ⟨some .number, f, some op, true, some d, .nums [a, b]⟩) ∧
      ((splitValue v (some d)).length ≠ 2 →
        ∃ e, transform ⟨some .date, f, some op, true, some d, v⟩ = .error e) ∧
      (∀ L : List Int, (splitValue v (some d)).map dateParse = L.map some → L.length ≠ 2 →
        transform ⟨some .date, f, some op, true, some d, v⟩ =
          .error (.wrongArgCount 2 L.length)) ∧
      (∀ t₁ t₂ a b, splitValue v (some d) = [t₁, t₂] →
        dateParse t₁ = some a → dateParse t₂ = some b →
        transform ⟨some .date, f, some op, true, some d, v⟩ =
          .ok ⟨some .date, f, some op, true, some d, .dates [a, b]⟩)) := by
  intro f op v d hop
  have hrange : isRangeTypeOperator (some op) = true := by
    rcases hop with rfl | rfl <;> rfl
  refine ⟨?_, ?_, ?_, ?_, ?_, ?_⟩
  · intro hlen
    by_cases hA : ((splitValue v (some d)).map toNumber).any Option.isNone = true
    · exact ⟨.invalidValueTypes, by simp [transform, hA]⟩
    · rw [Bool.not_eq_true] at hA
      have hL : ((splitValue v (some d)).filterMap toNumber).length ≠ 2 := by
        rw [length_filterMap_of_any_isNone_false _ _ hA]; exact hlen
      exact ⟨.wrongArgCount 2 ((splitValue v (some d)).filterMap toNumber).length,
        by simp [transform, hA, hrange, hL]⟩
  · intro L h hlen
    simp [transform, h, any_isNone_map_some, hrange, hlen, filterMap_id_map_some]
  · intro t₁ t₂ a b hsplit h₁ h₂
    simp [transform, RawDescriptor.withValue, hsplit, h₁, h₂, hrange]
  · intro hlen
    by_cases hA : ((splitValue v (some d)).map dateParse).any Option.isNone = true
    · exact ⟨.invalidValueTypes, by simp [transform, hA]⟩
    · rw [Bool.not_eq_true] at hA
      have hL : ((splitValue v (some d)).filterMap dateParse).length ≠ 2 := by
        rw [length_filterMap_of_any_isNone_false _ _ hA]; exact hlen
      exact ⟨.wrongArgCount 2 ((splitValue v (some d)).filterMap dateParse).length,
        by simp [transform, hA, hrange, hL]⟩
  · intro L h hlen
    simp [transform, h, any_isNone_map_some, hrange, hlen, filterMap_id_map_some]
  · intro t₁ t₂ a b hsplit h₁ h₂
    simp [transform, RawDescriptor.withValue, hsplit, h₁, h₂, hrange]

/-- Claim C8 witness: the count-naming conjunct applied at a 3-element group
and the success conjunct at a 2-element group. -/
theorem C8_range_arity_witness :
    transform ⟨some .number, some "price", some .between, true, some ',', "1,2,3"⟩ =
      .error (.wrongArgCount 2 3) ∧
    transform ⟨some .date, some "posted", some .between, true, some ',',
        "2024-04-01,2024-04-30"⟩ =
      .ok ⟨some .date, some "posted", some .between, true, some ',',
        .dates [1711929600000, 1714435200000]⟩ :=
  ⟨(C8_range_arity (some "price") .between "1,2,3" ',' (Or.inl rfl)).2.1
      [1, 2, 3] (by decide) (by decide),
    (C8_range_arity (some "posted") .between "2024-04-01,2024-04-30" ','
        (Or.inl rfl)).2.2.2.2.2 "2024-04-01" "2024-04-30" 1711929600000 1714435200000
      (by decide) (by decide) (by decide)⟩

/-- Claim C9: `extract` rebuilds its whole per-call state before the scan, so
its result is independent of whatever a `Parser` instance held — successive
calls on the same instance with the same arguments return equal result
lists, and a method call agrees with the stateless function. -/
theorem C9_extract_stateless :
    (∀ (i₁ i₂ : ParserInstance) (s : String) (o : Option (List String)),
      extractOn i₁ s o = extractOn i₂ s o) ∧
    (∀ (i : ParserInstance) (s : String) (ks : List String),
      extractOn i s (some ks) = extract s ks) ∧
    (∀ (i : ParserInstance) (s : String), extractOn i s none = extract s ["*"]) :=
  ⟨fun _ _ _ _ => rfl, fun _ _ _ => rfl, fun _ _ => rfl⟩

/-- Claim C10: when at end of input the buffer is non-empty but `field` and
`operator` were never set, the trailing text is silently discarded: no
descriptor is emitted for it, no error is raised, and earlier descriptors
are returned. -/
theorem C10_headerless_trailing_discarded :
    (∀ st : PState, fieldFalsy st.filter.field = true → st.filter.operator = none →
      finalize st = .ok st.buffer) ∧
    extract "s:a:=:1,trailing" =
      .ok [⟨some .string, some "a", some .eq, false, none, .str "1"⟩] ∧
    extract "no colon here" = .ok [] := by
  refine ⟨?_, by decide, by decide⟩
  intro st h₁ h₂
  simp [finalize, h₁, h₂]

/-- Claim C10 witness: the discard conjunct applied at a concrete end-of-input
state with trailing headerless text. -/
theorem C10_headerless_trailing_discarded_witness :
    finalize { stack := "trailing" } = .ok [] :=
  C10_headerless_trailing_discarded.1 { stack := "trailing" } rfl rfl

end QSP
